import Mathlib

/-!
Verification development for the hdpipe candidate viewer
(src/hdpipe/candviewer.py).

The Python code is shallowly embedded: pure numeric computations on
Python floats are modelled over the rationals, machine integers over
Int/Nat, fallible code over Except, and filesystem and subprocess
effects via explicit state passing and outcome parameters.
-/

/-- A heimdall candidate record, as parsed by load_data
(src/hdpipe/candviewer.py, lines 110-140).  Fields follow the dtype
declared there: snr, samp_nr, time, filter, dmtrial, dm, n_clusters,
start, end. -/
structure CandRecord where
  snr : ℚ
  samp_nr : ℤ
  time : ℚ
  filter : ℤ
  dmtrial : ℤ
  dm : ℚ
  n_clusters : ℤ
  start : ℤ
  «end» : ℤ
  deriving DecidableEq, Repr

/-- The RFI-rejection mask of remove_bad_cands
(src/hdpipe/candviewer.py, lines 143-158):
snr > 7.0 and filter <= 10 and dm > 320 and dm < 350 and n_clusters > 5. -/
def good_cand (c : CandRecord) : Bool :=
  (c.snr > 7) && (c.filter ≤ 10) && (c.dm > 320) && (c.dm < 350) &&
    (c.n_clusters > 5)

/-- remove_bad_cands (src/hdpipe/candviewer.py, lines 143-158): copies the
input array and keeps exactly the records satisfying the mask.  The
np.copy means the input is never mutated; on lists this is the pure
filter. -/
def remove_bad_cands (data : List CandRecord) : List CandRecord :=
  data.filter good_cand

/-- A record after the per-file provenance fields are filled in by the
loop of main (src/hdpipe/candviewer.py, lines 653-671): cand_file,
fil_file and total_time are added to the parsed record. -/
structure LoadedRecord where
  cand : CandRecord
  cand_file : String
  fil_file : String
  total_time : ℚ
  deriving DecidableEq, Repr

/-- The hard-coded inter-file gap of 60.0 seconds used in main
(src/hdpipe/candviewer.py, line 660). -/
def session_gap : ℚ := 60

/-- The per-file time offset added by main, line 660:
part["total_time"] = part["time"] + (icand - 1) * 60.0, where icand is
the 0-based index of the candidate file in the sorted list. -/
def file_offset (icand : ℕ) : ℚ :=
  (((icand : ℤ) : ℚ) - 1) * session_gap

/-- One iteration of the aggregation loop in main (lines 653-660) for
the file at 0-based index icand: set cand_file to the file name,
fil_file to the name with the last five characters replaced by ".fil"
(item[0:-5] + ".fil", line 658), and total_time to
time + (icand - 1) * 60.0. -/
def assign_total_time (icand : ℕ) (f : String × List CandRecord) :
    List LoadedRecord :=
  f.2.map fun c =>
    { cand := c
      cand_file := f.1
      fil_file := f.1.dropRight 5 ++ ".fil"
      total_time := c.time + file_offset icand }

/-- The whole aggregation loop of main (lines 653-671): enumerate the
sorted candidate files, assign provenance and total_time per file, and
concatenate the parts in order. -/
def aggregate (candfiles : List (String × List CandRecord)) :
    List LoadedRecord :=
  (candfiles.enum.map fun p => assign_total_time p.1 p.2).flatten

/-- A concrete candidate record used to evaluate the aggregation on the
first (index 0) candidate file. -/
def c0 : CandRecord :=
  { snr := 8, samp_nr := 0, time := 0, filter := 0, dmtrial := 0,
    dm := 330, n_clusters := 6, start := 0, «end» := 0 }

example : aggregate [("a.cand", [c0])] =
    [{ cand := c0, cand_file := "a.cand", fil_file := "a.fil",
       total_time := -60 }] := by
  simp [aggregate, assign_total_time, file_offset, session_gap, c0]
  decide

/-- Python int() applied to a float: truncation toward zero. -/
def pyTrunc (q : ℚ) : ℤ :=
  if 0 ≤ q then ⌊q⌋ else ⌈q⌉

/-- Python 3 round() applied to a float: round half to even. -/
def pyRound (q : ℚ) : ℤ :=
  let f := ⌊q⌋
  let r := q - f
  if r < 1/2 then f
  else if 1/2 < r then f + 1
  else if f % 2 = 0 then f else f + 1

/-- The bin-count computation of plot_candidate_dspsr
(src/hdpipe/candviewer.py, lines 503-512): if the nbin argument is 0,
derive nbin = int(cand_tot_time / cand_filter_time); then apply
if nbin < 16: nbin = 16 and if nbin > 1024: nbin = 1024.  Both clamps
sit outside the nbin == 0 branch, so they also apply to a caller
supplied nbin. -/
def derive_nbin (nbin : ℤ) (cand_tot_time cand_filter_time : ℚ) : ℤ :=
  let nbin1 := if nbin = 0 then pyTrunc (cand_tot_time / cand_filter_time)
               else nbin
  let nbin2 := if nbin1 < 16 then 16 else nbin1
  if nbin2 > 1024 then 1024 else nbin2

/-- The channel count computation of plot_candidate_dspsr (lines
557-568): if the nchan argument is 0, derive
nchan = int(round((snr / 4)^2)); then if nchan < 2: nchan = 2 and
if nchan > 512: nchan = 512. -/
def derive_nchan (nchan : ℤ) (snr : ℚ) : ℤ :=
  let nchan1 := if nchan = 0 then pyRound ((snr / 4) ^ 2) else nchan
  let nchan2 := if nchan1 < 2 then 2 else nchan1
  if nchan2 > 512 then 512 else nchan2

/-- The extraction window derived by plot_candidate_dspsr (lines
448-568) for one candidate.  All times are in seconds, modelled over
the rationals. -/
structure DerivedWindow where
  cand_time : ℚ
  cand_filter_time : ℚ
  cand_smearing : ℚ
  cand_start_time : ℚ
  cand_tot_time : ℚ
  nbin : ℤ
  nchan : ℤ
  deriving DecidableEq, Repr

/-- The numeric core of plot_candidate_dspsr (lines 448-568), with the
tool-reported quantities (samp_time from the header query,
cand_band_smear from dmsmear) passed in as parameters:
cand_time = samp_time * sample (line 448),
cand_filter_time = 2^filter * samp_time (line 489),
cand_smearing = cand_band_smear + cand_filter_time (line 496),
cand_start_time = cand_time - 0.5 * cand_smearing (line 497),
cand_tot_time = 2.0 * cand_smearing unless a nonzero length argument
overrides it (lines 498-501), then the nbin and nchan computations. -/
def derive_window (samp_time : ℚ) (sample : ℤ) (filter : ℕ) (snr : ℚ)
    (cand_band_smear : ℚ) (nchan nbin : ℤ) (length : ℚ) : DerivedWindow :=
  let cand_time := samp_time * sample
  let cand_filter_time := (2 ^ filter : ℚ) * samp_time
  let cand_smearing := cand_band_smear + cand_filter_time
  let cand_start_time := cand_time - 1/2 * cand_smearing
  let cand_tot_time := if length ≠ 0 then length else 2 * cand_smearing
  { cand_time := cand_time
    cand_filter_time := cand_filter_time
    cand_smearing := cand_smearing
    cand_start_time := cand_start_time
    cand_tot_time := cand_tot_time
    nbin := derive_nbin nbin cand_tot_time cand_filter_time
    nchan := derive_nchan nchan snr }

example : derive_window (1/1000) 1000 0 4 0 0 0 0 =
    { cand_time := 1, cand_filter_time := 1/1000, cand_smearing := 1/1000,
      cand_start_time := 1 - 1/2000, cand_tot_time := 1/500,
      nbin := 16, nchan := 2 } := by
  simp [derive_window, derive_nbin, derive_nchan, pyTrunc, pyRound]
  norm_num

/-- Python exceptions that get_zap_file can terminate with. -/
inductive PyErr where
  | runtimeError (msg : String)
  | unboundLocalError (name : String)
  deriving DecidableEq, Repr

/-- The zap mask directory os.path.join(os.path.dirname(__file__),
'zap_masks') of get_zap_file (src/hdpipe/candviewer.py, lines 373-376),
modelled as a fixed path. -/
def zap_mask_dir : String := "zap_masks"

/-- The if/elif chain of get_zap_file (src/hdpipe/candviewer.py, lines
378-409), which assigns the local zap_file for the four recognized
modes.  The else branch (line 409) evaluates the expression
RuntimeError("Zap mask mode unknown: " + zap_mode) WITHOUT a raise
statement, so the exception object is discarded and zap_file stays
unassigned — modelled as none. -/
def zap_path (zap_mode : String) : Option String :=
  if zap_mode = "None" then some (zap_mask_dir ++ "/none.psh")
  else if zap_mode = "Lovell_20cm" then
    some (zap_mask_dir ++ "/Lovell_20cm.psh")
  else if zap_mode = "Lovell_80cm" then
    some (zap_mask_dir ++ "/Lovell_80cm.psh")
  else if zap_mode = "MeerKAT_20cm" then
    some (zap_mask_dir ++ "/MeerKAT_20cm.psh")
  else none

/-- The rest of get_zap_file: with zap_file assigned, line 411 raises a
RuntimeError when the file does not exist and line 414 returns it
otherwise; with zap_file unassigned, line 411 itself fails with an
UnboundLocalError. -/
def get_zap_file (fs : List String) (zap_mode : String) :
    Except PyErr String :=
  match zap_path zap_mode with
  | none => Except.error (PyErr.unboundLocalError "zap_file")
  | some zap_file =>
    if zap_file ∈ fs then Except.ok zap_file
    else Except.error (PyErr.runtimeError
      ("The zap mask file does not exist: " ++ zap_file))

example : get_zap_file [] "Foo" =
    Except.error (PyErr.unboundLocalError "zap_file") := rfl
example : get_zap_file ["zap_masks/none.psh"] "None" =
    Except.ok "zap_masks/none.psh" := rfl

/-- The error kinds a single run of plot_candidate_dspsr can raise,
by the Python exception class that carries them: headerFail,
dmsmearFail, dspsrFail and psrplotFail are subprocess.CalledProcessError
from the four tool invocations; filMissing is the RuntimeError of line
426; zapUnknown is the UnboundLocalError caused by line 409; zapMissing
is the RuntimeError of line 412 (or 573). -/
inductive PcdErr where
  | filMissing
  | headerFail
  | dmsmearFail
  | dspsrFail
  | zapUnknown
  | zapMissing
  | psrplotFail
  deriving DecidableEq, Repr

/-- Whether a PcdErr is carried by subprocess.CalledProcessError, the
only exception class caught by the batch loop of main (line 712). -/
def isCalledProcessError : PcdErr → Bool
  | PcdErr.headerFail => true
  | PcdErr.dmsmearFail => true
  | PcdErr.dspsrFail => true
  | PcdErr.psrplotFail => true
  | _ => false

/-- Outcome of the external effects during one run of
plot_candidate_dspsr: whether the filterbank file exists (line 425),
whether each tool invocation exits zero (header line 432, dmsmear line
474, dspsr line 532, psrplot line 617), and how the zap mask resolution
of line 571 ends. -/
structure ToolOutcome where
  fil_exists : Bool
  header_ok : Bool
  dmsmear_ok : Bool
  dspsr_ok : Bool
  zap_result : Except PyErr String
  psrplot_ok : Bool
  deriving Repr

/-- Classify the zap resolution outcome as a PcdErr. -/
def zapErr : PyErr → PcdErr
  | PyErr.unboundLocalError _ => PcdErr.zapUnknown
  | PyErr.runtimeError _ => PcdErr.zapMissing

/-- Control flow of one run of plot_candidate_dspsr
(src/hdpipe/candviewer.py, lines 417-623), as a state-passing function:
the first component is the result (ok, or the error the run raises) and
the second is whether the temporary working directory created by
tempfile.mkdtemp (line 527) still exists when the call terminates.
Order of events in the source: filterbank existence check (line 425),
header query (line 432), dmsmear query (line 474), mkdtemp (line 527),
dspsr (line 532), the bounded archive poll (lines 551-555, which only
sleeps and cannot fail), zap mask resolution (line 571), psrplot (line
617), and only then the cleanup (lines 620-623) that removes the
archive and the workdir.  There is no try/finally around it, so any
exception raised after mkdtemp leaves the workdir in place. -/
def plot_candidate_dspsr_run (o : ToolOutcome) :
    Except PcdErr Unit × Bool :=
  if !o.fil_exists then (Except.error PcdErr.filMissing, false)
  else if !o.header_ok then (Except.error PcdErr.headerFail, false)
  else if !o.dmsmear_ok then (Except.error PcdErr.dmsmearFail, false)
  else
    -- workdir created here (line 527)
    if !o.dspsr_ok then (Except.error PcdErr.dspsrFail, true)
    else
      match o.zap_result with
      | Except.error e => (Except.error (zapErr e), true)
      | Except.ok _ =>
        if !o.psrplot_ok then (Except.error PcdErr.psrplotFail, true)
        else (Except.ok (), false)

/-- Whether the run reaches line 527 and creates the workdir: the
filterbank file exists and the header and dmsmear invocations
succeed. -/
def workdir_created (o : ToolOutcome) : Bool :=
  o.fil_exists && o.header_ok && o.dmsmear_ok

/-- The per-candidate loop of main (src/hdpipe/candviewer.py, lines
697-717): starting from cand_nr, run plot_candidate_dspsr for each
candidate outcome in order; a subprocess.CalledProcessError is caught
and only printed (lines 712-713), any other exception propagates out of
the loop; cand_nr is incremented once per attempted candidate and its
final value is the number printed by line 717. -/
def main_loop : List ToolOutcome → ℕ → Except PcdErr ℕ
  | [], cand_nr => Except.ok cand_nr
  | o :: rest, cand_nr =>
    match (plot_candidate_dspsr_run o).1 with
    | Except.ok _ => main_loop rest (cand_nr + 1)
    | Except.error e =>
      if isCalledProcessError e then main_loop rest (cand_nr + 1)
      else Except.error e

/-- A run in which every external step succeeds. -/
def o_ok : ToolOutcome :=
  { fil_exists := true, header_ok := true, dmsmear_ok := true,
    dspsr_ok := true, zap_result := Except.ok "zap_masks/none.psh",
    psrplot_ok := true }

/-- A run in which the rendering tool (psrplot) exits non-zero and all
earlier steps succeed. -/
def o_psrplot_fail : ToolOutcome :=
  { o_ok with psrplot_ok := false }

/-- A run in which the extraction tool (dspsr) exits non-zero and all
earlier steps succeed. -/
def o_dspsr_fail : ToolOutcome :=
  { o_ok with dspsr_ok := false }

/-- A run on a candidate whose filterbank file is missing. -/
def o_fil_missing : ToolOutcome :=
  { o_ok with fil_exists := false }

example : plot_candidate_dspsr_run o_ok = (Except.ok (), false) := rfl
example : plot_candidate_dspsr_run o_dspsr_fail =
    (Except.error PcdErr.dspsrFail, true) := rfl
example : main_loop [o_fil_missing] 1 =
    Except.error PcdErr.filMissing := rfl
example : main_loop [o_ok, o_psrplot_fail, o_ok] 1 = Except.ok 4 := rfl

/-! ## Theorems about the claims -/

/-- C1: counterexample — when the dspsr invocation raises, the run of
plot_candidate_dspsr terminates with the temporary workspace created
and still existing, so the workspace is not removed on every exit
path and the candidate reaches its Failed state with the directory
left behind. -/
theorem C1_counterexample :
    workdir_created o_dspsr_fail = true ∧
    plot_candidate_dspsr_run o_dspsr_fail =
      (Except.error PcdErr.dspsrFail, true) :=
  ⟨rfl, rfl⟩

/-- C1 (amended): the workspace directory still exists at the end of a
plot_candidate_dspsr run exactly when the workspace was created and the
run raised; equivalently, the cleanup of lines 620-623 runs only on the
success path, and every exit path that raises after the workspace is
created (dspsr failure, zap resolution failure, psrplot failure) leaves
the workspace directory in place. -/
theorem C1_cleanup_on_success_only (o : ToolOutcome) :
    (plot_candidate_dspsr_run o).2 =
      (workdir_created o && !(plot_candidate_dspsr_run o).1.isOk) := by
  rcases o with ⟨f, h, d, ds, z, p⟩
  cases f <;> cases h <;> cases d <;> cases ds <;> cases z <;> cases p <;> rfl

/-- Whether the error (if any) of one plot_candidate_dspsr run is
swallowed by the batch loop: successes trivially, errors only when they
are subprocess.CalledProcessError. -/
def run_swallowed (o : ToolOutcome) : Bool :=
  match (plot_candidate_dspsr_run o).1 with
  | Except.ok _ => true
  | Except.error e => isCalledProcessError e

/-- A run in which the header query exits non-zero. -/
def o_header_fail : ToolOutcome :=
  { o_ok with header_ok := false }

/-- C2: counterexample — a candidate whose raw data (filterbank) file
is missing raises a RuntimeError inside its extraction; the batch loop
catches only subprocess.CalledProcessError, so this error propagates
out of the loop and aborts the batch before the second candidate is
attempted. -/
theorem C2_counterexample :
    main_loop [o_fil_missing, o_ok] 1 = Except.error PcdErr.filMissing :=
  rfl

/-- C2 (amended): the batch loop runs to completion (returning the
final cand_nr, one increment per attempted candidate) exactly when
every candidate run either succeeds or raises a
subprocess.CalledProcessError — the error class of the four external
tool invocations; errors of any other class (missing raw data file,
unknown zap mode, missing mask file) propagate and abort the batch. -/
theorem C2_only_cpe_caught (outcomes : List ToolOutcome) (cand_nr : ℕ) :
    main_loop outcomes cand_nr = Except.ok (cand_nr + outcomes.length) ↔
      outcomes.all run_swallowed = true := by
  induction outcomes generalizing cand_nr with
  | nil => simp [main_loop]
  | cons o rest ih =>
    simp only [main_loop, List.all_cons, Bool.and_eq_true, List.length_cons]
    cases hr : (plot_candidate_dspsr_run o).1 with
    | ok u =>
      have hs : run_swallowed o = true := by simp [run_swallowed, hr]
      have harith : cand_nr + (rest.length + 1) = (cand_nr + 1) + rest.length := by
        omega
      simp [hs, harith, ih]
    | error e =>
      cases hc : isCalledProcessError e with
      | true =>
        have hs : run_swallowed o = true := by simp [run_swallowed, hr, hc]
        have harith : cand_nr + (rest.length + 1) = (cand_nr + 1) + rest.length := by
          omega
        simp [hs, hc, harith, ih]
      | false =>
        have hs : run_swallowed o = false := by simp [run_swallowed, hr, hc]
        simp [hs, hc]

/-- C2 witness: a batch of one candidate whose header query fails runs
to completion with final cand_nr 2. -/
theorem C2_witness : main_loop [o_header_fail] 1 = Except.ok 2 :=
  (C2_only_cpe_caught [o_header_fail] 1).mpr rfl

/-- C3: counterexample — the single record of the first candidate file
(index k = 0) receives total_time = local time - 60, whereas the
claimed formula local_time + k * session_gap gives local time + 0. -/
theorem C3_counterexample :
    (aggregate [("a.cand", [c0])]).map LoadedRecord.total_time = [-60] ∧
    (-60 : ℚ) ≠ c0.time + 0 * session_gap := by
  constructor
  · simp [aggregate, assign_total_time, file_offset, session_gap, c0]
  · simp [c0, session_gap]

/-- C3 (amended): every record coming from the k-th candidate file
(0-indexed) is assigned global_time = local_time + (k - 1) * session_gap,
with session_gap = 60 seconds. -/
theorem C3_offset_formula (files : List (String × List CandRecord))
    (k : ℕ) (name : String) (recs : List CandRecord)
    (hk : files[k]? = some (name, recs))
    (c : CandRecord) (hc : c ∈ recs) :
    ∃ r ∈ aggregate files, r.cand = c ∧ r.cand_file = name ∧
      r.total_time = c.time + (((k : ℤ) : ℚ) - 1) * session_gap := by
  refine ⟨{ cand := c, cand_file := name,
            fil_file := name.dropRight 5 ++ ".fil",
            total_time := c.time + file_offset k }, ?_, rfl, rfl, ?_⟩
  · unfold aggregate
    rw [List.mem_flatten]
    refine ⟨assign_total_time k (name, recs), ?_, ?_⟩
    · exact List.mem_map.mpr
        ⟨(k, (name, recs)), List.mk_mem_enum_iff_getElem?.mpr hk, rfl⟩
    · exact List.mem_map.mpr ⟨c, hc, rfl⟩
  · simp [file_offset]

/-- C3 witness: instantiated on a single candidate file holding the
record c0. -/
theorem C3_witness :
    ∃ r ∈ aggregate [("a.cand", [c0])], r.cand = c0 ∧
      r.cand_file = "a.cand" ∧
      r.total_time = c0.time + ((((0 : ℕ) : ℤ) : ℚ) - 1) * session_gap :=
  C3_offset_formula [("a.cand", [c0])] 0 "a.cand" [c0] rfl c0
    (List.mem_singleton.mpr rfl)

/-- C4: counterexample — in the first candidate file (index 0) the
offset contribution is (0 - 1) * 60 = -60, so its record gets
global_time = -60 < 0 = local_time, violating global_time >=
local_time. -/
theorem C4_counterexample :
    aggregate [("a.cand", [c0])] =
      [{ cand := c0, cand_file := "a.cand", fil_file := "a.fil",
         total_time := -60 }] ∧
    ¬ (c0.time ≤ (-60 : ℚ)) := by
  constructor
  · simp [aggregate, assign_total_time, file_offset, session_gap, c0]
    decide
  · simp [c0]

/-- C4 (amended): the per-file offsets are non-decreasing with file
order (for i ≤ j the offset added to file j is at least the offset
added to file i), and for every file of index k ≥ 1 each of its records
satisfies global_time ≥ local_time; the first file (k = 0) instead gets
the negative offset -session_gap. -/
theorem C4_offsets (i j : ℕ) (hij : i ≤ j) (k : ℕ) (hk : 1 ≤ k)
    (f : String × List CandRecord) (r : LoadedRecord)
    (hr : r ∈ assign_total_time k f) :
    file_offset i ≤ file_offset j ∧ r.cand.time ≤ r.total_time := by
  constructor
  · unfold file_offset session_gap
    have hcast : ((i : ℤ) : ℚ) ≤ ((j : ℤ) : ℚ) := by exact_mod_cast hij
    nlinarith
  · obtain ⟨c, _, rfl⟩ := List.mem_map.mp hr
    have hoff : 0 ≤ file_offset k := by
      unfold file_offset session_gap
      have hcast : (1 : ℚ) ≤ ((k : ℤ) : ℚ) := by exact_mod_cast hk
      nlinarith
    simpa using hoff

/-- The record that assign_total_time produces from c0 at file index
1. -/
def r_c0_idx1 : LoadedRecord :=
  { cand := c0, cand_file := "a.cand",
    fil_file := "a.cand".dropRight 5 ++ ".fil",
    total_time := c0.time + file_offset 1 }

/-- C4 witness: instantiated at file indices 0 ≤ 1 and the record of c0
in the file of index 1. -/
theorem C4_witness :
    file_offset 0 ≤ file_offset 1 ∧ r_c0_idx1.cand.time ≤ r_c0_idx1.total_time :=
  C4_offsets 0 1 (by decide) 1 (by decide) ("a.cand", [c0]) r_c0_idx1
    (List.mem_singleton.mpr rfl)

/-- C5: counterexample — with 3 candidates of which the 2nd fails at
the psrplot (rendering) invocation, the loop completes and the number
printed by the final report line is the final cand_nr, 4; it is not the
number of succeeded extractions, 2. -/
theorem C5_counterexample :
    main_loop [o_ok, o_psrplot_fail, o_ok] 1 = Except.ok 4 ∧ (4 : ℕ) ≠ 2 :=
  ⟨rfl, by decide⟩

/-- C5 (amended): with 3 candidates of which the 2nd fails at
rendering, the batch driver does continue and attempts all three
(the loop completes, incrementing cand_nr once per attempt), 2 of the 3
runs succeed, but the final report prints the final cand_nr — the
number of attempts plus one, here 4 — and no count of successes. -/
theorem C5_partial_failure_report :
    main_loop [o_ok, o_psrplot_fail, o_ok] 1 = Except.ok 4 ∧
    ([o_ok, o_psrplot_fail, o_ok].countP
      fun o => (plot_candidate_dspsr_run o).1.isOk) = 2 :=
  ⟨rfl, rfl⟩

/-- C6: counterexample — a supplied bin-count override of 2000 is
clamped to 1024 and an override of 4 is clamped to 16, contradicting
the claim that an override is used with no further clamping. -/
theorem C6_counterexample :
    derive_nbin 2000 1 1 = 1024 ∧ (1024 : ℤ) ≠ 2000 ∧
    derive_nbin 4 1 1 = 16 ∧ (16 : ℤ) ≠ 4 := by
  refine ⟨?_, by decide, ?_, by decide⟩ <;> rfl

/-- C6 (amended): a supplied (nonzero) bin-count override is still
clamped into [16, 1024]; the clamp of lines 508-512 applies whether or
not the override is present. -/
theorem C6_override_clamped (nbin : ℤ) (t f : ℚ) (h : nbin ≠ 0) :
    derive_nbin nbin t f = min (max nbin 16) 1024 := by
  unfold derive_nbin
  simp only [if_neg h]
  split_ifs <;> omega

/-- C6 witness: the override 2000 is clamped to
min (max 2000 16) 1024 = 1024. -/
theorem C6_witness :
    (2000 : ℤ) ≠ 0 ∧ derive_nbin 2000 1 1 = min (max 2000 16) 1024 :=
  ⟨by decide, C6_override_clamped 2000 1 1 (by decide)⟩

/-- C7: for any zap mode outside the recognized set, get_zap_file does
not raise the constructed RuntimeError (line 409 builds the exception
object but lacks a raise statement); instead the local zap_file is
never assigned and the function fails with an UnboundLocalError,
whatever the filesystem contents. -/
theorem C7_unknown_mode_unbound_local (fs : List String) (mode : String)
    (h : mode ∉ ["None", "Lovell_20cm", "Lovell_80cm", "MeerKAT_20cm"]) :
    get_zap_file fs mode =
      Except.error (PyErr.unboundLocalError "zap_file") := by
  simp only [List.mem_cons, List.not_mem_nil, or_false, not_or] at h
  obtain ⟨h1, h2, h3, h4⟩ := h
  simp [get_zap_file, zap_path, h1, h2, h3, h4]

/-- C7 witness: the unrecognized mode "Foo" fails with an
UnboundLocalError on an empty filesystem. -/
theorem C7_witness :
    "Foo" ∉ ["None", "Lovell_20cm", "Lovell_80cm", "MeerKAT_20cm"] ∧
    get_zap_file [] "Foo" =
      Except.error (PyErr.unboundLocalError "zap_file") :=
  ⟨by decide, C7_unknown_mode_unbound_local [] "Foo" (by decide)⟩

/-- C8: the window derived for filter_code 0, dm 0, snr 4, no
overrides, sample_interval 0.001 s, sample_index 1000 and smear
duration 0 has candidate time 1.0 s, filter duration 0.001 s,
extraction start 1.0 - 0.0005 s, extraction length 0.002 s, and channel
scrunch 2 (round((4/4)^2) = 1 clamped up to the minimum of 2). -/
theorem C8_window_example :
    (derive_window (1/1000) 1000 0 4 0 0 0 0).cand_time = 1 ∧
    (derive_window (1/1000) 1000 0 4 0 0 0 0).cand_filter_time = 1/1000 ∧
    (derive_window (1/1000) 1000 0 4 0 0 0 0).cand_start_time =
      1 - 5/10000 ∧
    (derive_window (1/1000) 1000 0 4 0 0 0 0).cand_tot_time = 2/1000 ∧
    (derive_window (1/1000) 1000 0 4 0 0 0 0).nchan = 2 := by
  refine ⟨?_, ?_, ?_, ?_, ?_⟩ <;>
    simp [derive_window, derive_nchan, pyRound] <;> norm_num

/-- C9: the classifier is a pure total function on candidate record
lists; its output only keeps elements of its input (the input itself is
never changed), and applying it twice gives the same list as applying
it once. -/
theorem C9_classifier_pure_idempotent (l : List CandRecord) :
    remove_bad_cands (remove_bad_cands l) = remove_bad_cands l ∧
    (remove_bad_cands l).Sublist l := by
  constructor
  · simp [remove_bad_cands, List.filter_filter]
  · exact List.filter_sublist l

/-- C10: zap-mask resolution never returns the path of a file missing
from the filesystem; in particular the mode "None" (zapping disabled)
still resolves to the concrete mask path zap_masks/none.psh and is
returned when that file exists, while a RuntimeError naming the path is
raised when it does not. -/
theorem C10_zap_resolution (fs : List String) (mode zf : String) :
    (get_zap_file fs mode = Except.ok zf → zf ∈ fs) ∧
    (zap_mask_dir ++ "/none.psh" ∈ fs →
      get_zap_file fs "None" = Except.ok (zap_mask_dir ++ "/none.psh")) ∧
    (zap_mask_dir ++ "/none.psh" ∉ fs →
      get_zap_file fs "None" = Except.error (PyErr.runtimeError
        ("The zap mask file does not exist: " ++
          (zap_mask_dir ++ "/none.psh")))) := by
  refine ⟨?_, ?_, ?_⟩
  · intro h
    cases hp : zap_path mode with
    | none => simp [get_zap_file, hp] at h
    | some p =>
      simp only [get_zap_file, hp] at h
      by_cases hm : p ∈ fs
      · rw [if_pos hm] at h
        injection h with hzf
        rwa [← hzf]
      · rw [if_neg hm] at h
        exact absurd h (by simp)
  · intro hmem
    simp [get_zap_file, zap_path, hmem]
  · intro hmem
    simp [get_zap_file, zap_path, hmem]

/-- C10 witness: on a filesystem holding exactly zap_masks/none.psh,
mode "None" resolves to that existing file. -/
theorem C10_witness :
    zap_mask_dir ++ "/none.psh" ∈ ["zap_masks/none.psh"] ∧
    get_zap_file ["zap_masks/none.psh"] "None" =
      Except.ok (zap_mask_dir ++ "/none.psh") :=
  ⟨by decide,
    (C10_zap_resolution ["zap_masks/none.psh"] "None" "").2.1 (by decide)⟩
